import Mathlib

/-!
Verification of the capacity-test core of `captest/captest.py`.

The development shallow-embeds the `CapTest` class: its data model (datasets,
fitted regression models, reporting conditions, tolerance strings) and the
operations the specification talks about (`summary`, `reg_cpt`, `cp_results`,
`uncertainty`).  Machine floats of the source are modelled as exact rationals;
the external statsmodels OLS primitive is modelled as an abstract engine that
returns coefficients, p-values, residuals and scale, as the spec describes it.
-/

set_option linter.unusedVariables false
set_option maxHeartbeats 1000000

namespace Captest

/-! ## Data model -/

/-- A pandas DataFrame: named columns and rows of numeric cells.  A row is the
list of cell values in column order. -/
structure DataFrame where
  cols : List String
  rows : List (List ℚ)
deriving DecidableEq

/-- Modelled from the spec: `CapData` is imported from `captest.capdata`, which
is not under `src/`.  The spec describes it as a Dataset abstraction: tabular
data with named columns, row selection, equality/empty checks and a `copy`
operation. -/
structure CapData where
  df : DataFrame
deriving DecidableEq

/-- Modelled from the spec: `CapData.empty()` checks whether the dataset holds
any data (used by `__flt_setup` to decide whether to copy the raw data). -/
def CapData.empty (cd : CapData) : Bool := cd.df.rows.isEmpty

/-- Modelled from the spec: `CapData.copy()` returns a deep copy; with value
semantics this is the identity on the value. -/
def CapData.copy (cd : CapData) : CapData := cd

/-- Column selection: the sub-frame of the named columns, in the given order
(only names actually present are kept). -/
def DataFrame.select (df : DataFrame) (names : List String) : DataFrame :=
  let idxs := names.filterMap fun n => df.cols.findIdx? fun c => c == n
  { cols := names.filter fun n => df.cols.contains n
    rows := df.rows.map fun r => idxs.filterMap fun i => r[i]? }

/-- Modelled from the spec: `CapData.rview` (from `captest.capdata`, not under
`src/`) returns the view of the columns of the requested regression-variable
types; for the fixed formula these are power, poa, t_amb and w_vel. -/
def CapData.rview (cd : CapData) (names : List String) : DataFrame :=
  cd.df.select names

/-- The reporting conditions `self.rc`: a single point (poa, t_amb, w_vel). -/
structure RC where
  poa : ℚ
  t_amb : ℚ
  w_vel : ℚ
deriving DecidableEq

/-- The four terms of the fixed regression formula
`power ~ poa + I(poa * poa) + I(poa * t_amb) + I(poa * w_vel) - 1`
(line 149).  There is no intercept term. -/
inductive Term
  | poa
  | poa_poa
  | poa_t_amb
  | poa_w_vel
deriving DecidableEq

/-- The regression formula string set in `CapTest.__init__` (line 149). -/
def reg_fml : String :=
  "power ~ poa + I(poa * poa) + I(poa * t_amb) + I(poa * w_vel) - 1"

/-- The terms of `reg_fml`, in formula order. -/
def regFmlTerms : List Term :=
  [Term.poa, Term.poa_poa, Term.poa_t_amb, Term.poa_w_vel]

/-- Value of a formula term at a reporting-condition point. -/
def termValue (rc : RC) : Term → ℚ
  | Term.poa => rc.poa
  | Term.poa_poa => rc.poa * rc.poa
  | Term.poa_t_amb => rc.poa * rc.t_amb
  | Term.poa_w_vel => rc.poa * rc.w_vel

/-- A fitted statsmodels OLS result, reduced to the fields the source reads:
`params` and `pvalues` (one entry per formula term), `resid` (one residual per
data row, in row order), `scale` (the MSE of the fit) and `mse_resid`. -/
structure OLSModel where
  params : Term → ℚ
  pvalues : Term → ℚ
  resid : List ℚ
  scale : ℚ
  mse_resid : ℚ

/-- `model.predict(rc)[0]`: the design row of the fixed formula at the
reporting conditions, dotted with the (possibly modified) coefficients. -/
def OLSModel.predict (m : OLSModel) (rc : RC) : ℚ :=
  (regFmlTerms.map fun t => m.params t * termValue rc t).sum

/-- The coefficient table of a fitted model: one entry per formula term. -/
def OLSModel.paramsList (m : OLSModel) : List (Term × ℚ) :=
  regFmlTerms.map fun t => (t, m.params t)

/-- The external OLS fitting primitive (spec section 6: "a generic OLS fitting
primitive taking a formula string and tabular data, returning
coefficients/p-values/residuals/scale").  The two well-formedness facts are
basic properties of any least-squares fit: one residual per observation, and a
non-negative mean squared error. -/
structure OLSEngine where
  fit : DataFrame → OLSModel
  resid_len : ∀ df : DataFrame, (fit df).resid.length = df.rows.length
  scale_nonneg : ∀ df : DataFrame, 0 ≤ (fit df).scale

/-- Errors of the fitting step (spec section 7 taxonomy). -/
inductive FitError
  | missingColumns
  | insufficientRows
deriving DecidableEq

/-- The columns the regression formula needs. -/
def requiredRegCols : List String := ["power", "poa", "t_amb", "w_vel"]

/-- Modelled from the spec: `fit_model` is called by `reg_cpt` (line 262) and
`uncertainty` (line 423) but defined in repository code that is not under
`src/`.  Per the spec it fits the fixed formula and "Fails with FitError if
fewer rows than free parameters, or required columns missing"; otherwise the
fit succeeds with one coefficient per formula term. -/
def fit_model (eng : OLSEngine) (df : DataFrame) : Except FitError OLSModel :=
  if (requiredRegCols.all fun c => df.cols.contains c) = false then
    Except.error FitError.missingColumns
  else if df.rows.length < regFmlTerms.length then
    Except.error FitError.insufficientRows
  else
    Except.ok (eng.fit df)

/-- The `CapTest` instance state: the fields of `__init__` (lines 137–149) that
the verified operations read or write.  The filter-history lists are handled by
`summary` below; `tolerance` is an attribute the caller sets before
`cp_results`. -/
structure CapTest where
  das : CapData
  flt_das : CapData
  sim : CapData
  flt_sim : CapData
  rc : RC
  tolerance : String
  ols_model_das : Option OLSModel
  ols_model_sim : Option OLSModel

/-- The `data` argument of the methods: the string 'das' or 'sim'. -/
inductive DataTag
  | das
  | sim
deriving DecidableEq

/-- The filtered dataset attribute (`flt_das` or `flt_sim`) named by a tag. -/
def getFlt (s : CapTest) (tag : DataTag) : CapData :=
  match tag with
  | DataTag.das => s.flt_das
  | DataTag.sim => s.flt_sim

/-- Assignment to the filtered dataset attribute named by a tag. -/
def setFlt (s : CapTest) (tag : DataTag) (cd : CapData) : CapTest :=
  match tag with
  | DataTag.das => { s with flt_das := cd }
  | DataTag.sim => { s with flt_sim := cd }

/-- `__flt_setup` (lines 216–227): if the filtered data is empty it is first
initialised with a copy of the raw data; the (possibly new) filtered CapData
object is returned.  In Python the returned object is the very object stored in
the `flt_` attribute; here that aliasing is made explicit by the callers, which
write any mutation of the returned object back into the state. -/
def flt_setup (s : CapTest) (tag : DataTag) : CapTest × CapData :=
  match tag with
  | DataTag.das =>
    if s.flt_das.empty then ({ s with flt_das := s.das.copy }, s.das.copy)
    else (s, s.flt_das)
  | DataTag.sim =>
    if s.flt_sim.empty then ({ s with flt_sim := s.sim.copy }, s.sim.copy)
    else (s, s.flt_sim)

/-! ## Filter history: `summary` -/

/-- `summary` (lines 151–186), as a function of the four history lists
(`das_summ_data`, `sim_summ_data`, `das_mindex`, `sim_mindex`).  The source
builds `summ_data` and `mindex` by the three-way branch on which histories are
non-empty, then constructs the summary DataFrame; constructing the MultiIndex
from an empty `mindex` raises TypeError, which is caught and reported as "No
filters have been run." and the method returns None — modelled by `none`.
A returned DataFrame is modelled by its data and index lists. -/
def summary {α β : Type} (dasSumm simSumm : List α) (dasMindex simMindex : List β) :
    Option (List α × List β) :=
  let summ_data : List α :=
    if dasSumm.length ≠ 0 ∧ simSumm.length ≠ 0 then dasSumm ++ simSumm
    else if dasSumm.length ≠ 0 then dasSumm
    else simSumm
  let mindex : List β :=
    if dasSumm.length ≠ 0 ∧ simSumm.length ≠ 0 then dasMindex ++ simMindex
    else if dasSumm.length ≠ 0 then dasMindex
    else simMindex
  if mindex.isEmpty then none else some (summ_data, mindex)

/-- Modelled from the spec: the module-level `columns` header list used at line
183 is repository code not under `src/`; the docstring of `summary` names the
three record fields: timestamps remaining after each step, timestamps removed
by each step, and the arguments of the call. -/
def columns : List String :=
  ["timestamps_remaining", "timestamps_removed", "filter_arguments"]

/-! ## Regression and residual filtering: `reg_cpt` -/

/-- The outlier test of line 268, `np.abs(reg.resid) < 2 * np.sqrt(reg.scale)`,
written without the irrational square root: for `0 ≤ scale` the test is
equivalent to `resid ^ 2 < 4 * scale` (see `residKeep_iff`), which is exact
rational arithmetic. -/
def residKeep (r scale : ℚ) : Bool := decide (r ^ 2 < 4 * scale)

/-- Lines 268–269: the boolean mask `|resid| < 2·√scale` is applied to the
rows (`df[mask]`), and the surviving index is used to reduce the stored frame
(`cd_obj.df.loc[df.index, :]`).  Residuals are positionally aligned with the
rows, so this keeps exactly the rows whose residual passes the test. -/
def regFilterRows (rows : List (List ℚ)) (resid : List ℚ) (scale : ℚ) :
    List (List ℚ) :=
  ((rows.zip resid).filter fun p => residKeep p.2 scale).map Prod.fst

/-- Lines 255–260: `cd_obj.rview(['power', 'poa', 't_amb', 'w_vel'])` followed
by the positional rename of the four columns to the standard names.  The
rename dict of lines 256–259 reads `df.columns[0]` through `df.columns[3]`, so
when the view has fewer than four columns the source raises IndexError,
modelled by `none`; otherwise the view's columns become exactly the four
standard names. -/
def regView (cd : CapData) : Option DataFrame :=
  let df := cd.rview requiredRegCols
  if df.cols.length < requiredRegCols.length then none
  else some { df with cols := requiredRegCols }

/-- The exceptions `reg_cpt` raises before reaching the filter: IndexError
from the positional rename of lines 256–259 when the regression view has
fewer than four columns, and FitError propagated unchanged from `fit_model`
(line 262). -/
inductive RegCptError
  | indexError
  | fitError (e : FitError)
deriving DecidableEq

/-- `reg_cpt` (lines 229–283) in state-passing form.  The first component is
the instance state after the call (the raised exceptions of the rename and of
`fit_model` leave only `__flt_setup`'s initialisation behind).  The second
component is the outcome: `Except.ok none` models the Python `None` return,
`Except.ok (some cd)` the returned CapData when `filter` and not `inplace`,
and `Except.error` the raised exception.  The pandas statement
`cd_obj.df = cd_obj.df.loc[df.index, :]` mutates the object returned by
`__flt_setup`, which is the object stored in the `flt_` attribute, so the
state's filtered dataset is updated before the `inplace` flag is consulted. -/
def reg_cpt (eng : OLSEngine) (s : CapTest) (tag : DataTag)
    (filter inplace summary : Bool) :
    CapTest × Except RegCptError (Option CapData) :=
  let p := flt_setup s tag
  let s1 := p.1
  let cd_obj := p.2
  match regView cd_obj with
  | none => (s1, Except.error RegCptError.indexError)
  | some df =>
    match fit_model eng df with
    | Except.error e => (s1, Except.error (RegCptError.fitError e))
    | Except.ok reg =>
      if filter then
        let kept := regFilterRows cd_obj.df.rows reg.resid reg.scale
        let cd2 : CapData := ⟨{ cd_obj.df with rows := kept }⟩
        let s2 := setFlt s1 tag cd2
        if inplace then (setFlt s2 tag cd2, Except.ok none)
        else (s2, Except.ok (some cd2))
      else
        match tag with
        | DataTag.das => ({ s1 with ols_model_das := some reg }, Except.ok none)
        | DataTag.sim => ({ s1 with ols_model_sim := some reg }, Except.ok none)

/-! ## Capacity results: `cp_results` -/

/-- Python `tolerance.split(sep=' ')`: split on every single space, keeping
empty segments. -/
def splitOnSpace (s : String) : List String :=
  (s.data.foldr
    (fun c acc =>
      if c = ' ' then [] :: acc else (c :: acc.headI) :: acc.tail)
    [[]]).map fun l => String.mk l

/-- Python `int(str)` on a split segment: an optional sign followed by digits. -/
def parseDigits (ds : List Char) : Option Nat :=
  match ds with
  | [] => none
  | _ =>
    if ds.all Char.isDigit then
      some (ds.foldl (fun acc c => 10 * acc + (c.toNat - '0'.toNat)) 0)
    else none

/-- Python `int(str)`: parse an integer literal, `ValueError` as `none`. -/
def parseInt (s : String) : Option Int :=
  match s.data with
  | '-' :: ds => (parseDigits ds).map fun n => -(n : Int)
  | '+' :: ds => (parseDigits ds).map fun n => (n : Int)
  | ds => (parseDigits ds).map fun n => (n : Int)

/-- Lines 309–315: with `check_pvalues` every coefficient whose p-value exceeds
`pval` is assigned zero, directly on the stored model's `params`. -/
def zeroHighPvals (m : OLSModel) (pval : ℚ) : OLSModel :=
  { m with params := fun t => if m.pvalues t > pval then 0 else m.params t }

/-- Lines 319–323: `cap_ratio = actual / expected`, and if `cap_ratio < 0.01`
both `cap_ratio` and `actual` are scaled by 1000.  Returns the pair
(cap_ratio, actual) after the heuristic. -/
def capRatioAdjust (actual expected : ℚ) : ℚ × ℚ :=
  let cap_ratio := actual / expected
  if cap_ratio < 1 / 100 then (cap_ratio * 1000, actual * 1000)
  else (cap_ratio, actual)

/-- The tolerance signs the `if`/`elif` chain of lines 332–350 recognises. -/
def recognizedSign (sign : String) : Bool :=
  sign == "+/-" || sign == "-/+" || sign == "+" || sign == "-"

/-- Lines 328–349: the printed pass/fail verdict.  `some true` when the PASS
branch prints, `some false` when the FAIL branch prints, `none` when the sign
is unrecognised (the final `else` prints only the sign complaint and assigns no
`bounds`). -/
def passFail (sign : String) (nameplate error capacity : ℚ) : Option Bool :=
  let nameplate_plus_error := nameplate * (1 + error / 100)
  let nameplate_minus_error := nameplate * (1 - error / 100)
  if sign == "+/-" || sign == "-/+" then
    some (decide (nameplate_minus_error ≤ capacity ∧ capacity ≤ nameplate_plus_error))
  else if sign == "+" then
    some (decide (nameplate ≤ capacity ∧ capacity ≤ nameplate_plus_error))
  else if sign == "-" then
    some (decide (nameplate_minus_error ≤ capacity ∧ capacity ≤ nameplate))
  else none

/-- The exceptions `cp_results` can raise: IndexError when the tolerance string
has no second space-separated field (line 326), ValueError when that field is
not an integer literal (line 326), and UnboundLocalError when `print_res` is
true and the sign is unrecognised, because the final `print` of line 363 reads
the never-assigned local `bounds`. -/
inductive CPError
  | indexError
  | valueError
  | unboundLocal
deriving DecidableEq

/-- `cp_results` (lines 285–365) in state-passing form.  The inputs are the
stored attributes the method reads (`ols_model_das`, `ols_model_sim`, `rc`,
`tolerance`) plus the arguments; the first component of the result is the pair
of stored models after the call (Python mutates them in place when
`check_pvalues` is set, and the mutation persists even when an exception is
raised later).  The second component is the outcome: `Except.ok (cap_ratio,
verdict)` models a normal return of `cap_ratio` where `verdict` is the printed
PASS/FAIL when `print_res` is true and the sign is recognised, and
`Except.error` models the raised exception. -/
def cp_results (das sim : OLSModel) (rc : RC) (tolerance : String)
    (nameplate : ℚ) (check_pvalues : Bool) (pval : ℚ) (print_res : Bool) :
    (OLSModel × OLSModel) × Except CPError (ℚ × Option Bool) :=
  let das' := if check_pvalues then zeroHighPvals das pval else das
  let sim' := if check_pvalues then zeroHighPvals sim pval else sim
  let actual := das'.predict rc
  let expected := sim'.predict rc
  let p := capRatioAdjust actual expected
  let cap_ratio := p.1
  let capacity := nameplate * cap_ratio
  let parts := splitOnSpace tolerance
  let sign := parts.headI
  let result : Except CPError (ℚ × Option Bool) :=
    match parts[1]? with
    | none => Except.error CPError.indexError
    | some errStr =>
      match parseInt errStr with
      | none => Except.error CPError.valueError
      | some errInt =>
        let error : ℚ := (errInt : ℚ)
        if print_res then
          match passFail sign nameplate error capacity with
          | some b => Except.ok (cap_ratio, some b)
          | none => Except.error CPError.unboundLocal
        else Except.ok (cap_ratio, none)
  ((das', sim'), result)

/-! ## Uncertainty: `uncertainty` -/

/-- The reporting-condition observation of lines 419–420: the reporting point
with the actual output substituted for power, in the column order of the
renamed frame (power, poa, t_amb, w_vel). -/
def uncertaintyRcPt (rc : RC) (actual : ℚ) : List ℚ :=
  [actual, rc.poa, rc.t_amb, rc.w_vel]

/-- The value of `df.append([rc_pt])` at line 421: the frame extended by the
reporting-condition row at the end. -/
def uncertaintyAppended (flt : DataFrame) (rc : RC) (actual : ℚ) : DataFrame :=
  { flt with rows := flt.rows ++ [uncertaintyRcPt rc actual] }

/-- Lines 413–423 of `uncertainty`: the data passed to the refit.  The source
calls `df.append([rc_pt])` (line 421) but discards the returned frame —
`DataFrame.append` is not in-place — so the refit input is the unchanged
`df`. -/
def uncertaintyData (flt : DataFrame) (rc : RC) (actual : ℚ) : DataFrame :=
  let df := flt
  let discarded := uncertaintyAppended df rc actual
  df

/-- Line 426: `infl.hat_matrix_diag[-1]` reads the leverage at the last row of
the data the model was actually fitted on. -/
def uncertaintyLeverageIndex (flt : DataFrame) (rc : RC) (actual : ℚ) : Nat :=
  (uncertaintyData flt rc actual).rows.length - 1

/-! ## Helper lemmas -/

/-- The rational residual test is exactly the source's `|resid| < 2·√scale`. -/
theorem residKeep_iff (r s : ℚ) (hs : 0 ≤ s) :
    residKeep r s = true ↔ |(r : ℝ)| < 2 * Real.sqrt (s : ℝ) := by
  rw [residKeep, decide_eq_true_iff]
  have h4 : (2 : ℝ) * Real.sqrt (s : ℝ) = Real.sqrt (4 * (s : ℝ)) := by
    rw [show (4 : ℝ) * (s : ℝ) = 2 ^ 2 * (s : ℝ) by ring,
      Real.sqrt_mul (by norm_num) _, Real.sqrt_sq (by norm_num)]
  rw [h4, Real.lt_sqrt (abs_nonneg _), sq_abs]
  constructor
  · intro h
    exact_mod_cast h
  · intro h
    exact_mod_cast h

/-- Mapping a boolean filter through an equivalent propositional test. -/
theorem filter_map_eq_filterMap {α β : Type} (pb : α → Bool) (q : α → Prop)
    [DecidablePred q] (hpq : ∀ a, pb a = true ↔ q a) (f : α → β) :
    ∀ l : List α,
      (l.filter pb).map f = l.filterMap fun a => if q a then some (f a) else none := by
  intro l
  induction l with
  | nil => rfl
  | cons x xs ih =>
    by_cases hx : q x
    · have hb : pb x = true := (hpq x).mpr hx
      simp [List.filter_cons, List.filterMap_cons, hb, hx, ih]
    · have hb : pb x = false := by
        cases hpb : pb x
        · rfl
        · exact absurd ((hpq x).mp hpb) hx
      simp [List.filter_cons, List.filterMap_cons, hb, hx, ih]

/-- The residual filter never adds rows. -/
theorem regFilterRows_length_le (rows : List (List ℚ)) (resid : List ℚ) (scale : ℚ) :
    (regFilterRows rows resid scale).length ≤ rows.length := by
  unfold regFilterRows
  rw [List.length_map]
  calc ((rows.zip resid).filter fun p => residKeep p.2 scale).length
      ≤ (rows.zip resid).length := List.length_filter_le _ _
    _ ≤ rows.length := by rw [List.length_zip]; exact min_le_left _ _

/-- When every residual passes the test, the filter keeps every row. -/
theorem regFilterRows_eq_self (rows : List (List ℚ)) (resid : List ℚ) (scale : ℚ)
    (hlen : rows.length ≤ resid.length)
    (hall : ∀ r ∈ resid, residKeep r scale = true) :
    regFilterRows rows resid scale = rows := by
  unfold regFilterRows
  rw [List.filter_eq_self.mpr, List.map_fst_zip _ _ hlen]
  intro p hp
  exact hall p.2 (List.of_mem_zip hp).2

/-- When the rename of lines 256–259 succeeds, the regression view has exactly
the four standard columns and keeps every row of the dataset. -/
theorem regView_some (cd : CapData) (dfv : DataFrame)
    (h : regView cd = some dfv) :
    dfv.cols = requiredRegCols ∧ dfv.rows.length = cd.df.rows.length := by
  unfold regView at h
  by_cases hc : (cd.rview requiredRegCols).cols.length < requiredRegCols.length
  · rw [if_pos hc] at h
    exact Option.noConfusion h
  · rw [if_neg hc] at h
    have hd := Option.some.inj h
    rw [← hd]
    refine ⟨rfl, ?_⟩
    show (cd.rview requiredRegCols).rows.length = cd.df.rows.length
    simp [CapData.rview, DataFrame.select]

/-- After a successful rename the view carries the required column names, so
`fit_model` (line 262) succeeds exactly when the view has at least as many
rows as the formula has terms. -/
theorem fit_model_ok_of_regView (eng : OLSEngine) (cd : CapData)
    (dfv : DataFrame) (hview : regView cd = some dfv)
    (hrows : regFmlTerms.length ≤ dfv.rows.length) :
    fit_model eng dfv = Except.ok (eng.fit dfv) := by
  have hcols : dfv.cols = requiredRegCols := (regView_some cd dfv hview).1
  unfold fit_model
  rw [hcols]
  rw [if_neg (by decide), if_neg (by omega)]

/-- The residual filter keeps exactly the rows paired with a residual whose
absolute value is below two standard deviations. -/
theorem regFilterRows_eq_filterMap (rows : List (List ℚ)) (resid : List ℚ)
    (scale : ℚ) (hs : 0 ≤ scale) :
    regFilterRows rows resid scale
      = (rows.zip resid).filterMap fun pr =>
          if |(pr.2 : ℝ)| < 2 * Real.sqrt ((scale : ℝ)) then some pr.1
          else none := by
  unfold regFilterRows
  exact @filter_map_eq_filterMap (List ℚ × ℚ) (List ℚ)
    (fun p => residKeep p.2 scale)
    (fun pr => |(pr.2 : ℝ)| < 2 * Real.sqrt ((scale : ℝ))) _
    (fun p => residKeep_iff p.2 scale hs) Prod.fst (rows.zip resid)

/-- On a non-empty filtered dataset, `__flt_setup` returns the stored object. -/
theorem flt_setup_of_nonempty (s : CapTest) (tag : DataTag)
    (h : (getFlt s tag).empty = false) :
    flt_setup s tag = (s, getFlt s tag) := by
  cases tag <;> simp_all [flt_setup, getFlt]

/-- An unrecognised sign falls through to the final `else`, printing no
verdict and assigning no `bounds`. -/
theorem passFail_none_of_unrecognized (s : String) (n e c : ℚ)
    (h : recognizedSign s = false) : passFail s n e c = none := by
  simp only [recognizedSign, Bool.or_eq_false_iff] at h
  obtain ⟨⟨⟨h1, h2⟩, h3⟩, h4⟩ := h
  simp [passFail, h1, h2, h3, h4]

/-! ## Concrete fixtures used by witnesses and counterexamples -/

/-- A one-row frame over the four regression columns. -/
def dfEx : DataFrame := ⟨["power", "poa", "t_amb", "w_vel"], [[1, 1, 1, 1]]⟩

/-- A one-row dataset. -/
def cdEx : CapData := ⟨dfEx⟩

/-- A reporting-condition point. -/
def rcEx : RC := ⟨1, 1, 1⟩

/-- A fitted model with unit coefficients and significant p-values. -/
def modelEx : OLSModel :=
  { params := fun _ => 1, pvalues := fun _ => 0, resid := [0], scale := 1
    mse_resid := 1 }

/-- A fitted model with unit coefficients whose p-values all exceed 0.05. -/
def modelHighP : OLSModel :=
  { params := fun _ => 1, pvalues := fun _ => 1, resid := [0], scale := 1
    mse_resid := 1 }

/-- An OLS engine returning zero residuals and unit scale for any data. -/
def engEx : OLSEngine :=
  { fit := fun df =>
      { params := fun _ => 0, pvalues := fun _ => 0
        resid := df.rows.map fun _ => 0, scale := 1, mse_resid := 1 }
    resid_len := fun df => by simp
    scale_nonneg := fun df => by norm_num }

/-- A `CapTest` instance with non-empty filtered data and fitted models. -/
def ctEx : CapTest :=
  { das := cdEx, flt_das := cdEx, sim := cdEx, flt_sim := cdEx, rc := rcEx
    tolerance := "+/- 10", ols_model_das := some modelEx
    ols_model_sim := some modelEx }

/-- A four-row frame over the four regression columns: enough observations
for the four-term formula, so `fit_model` succeeds on it. -/
def dfEx4 : DataFrame :=
  ⟨["power", "poa", "t_amb", "w_vel"],
    [[1, 1, 1, 1], [2, 1, 1, 1], [3, 2, 1, 1], [4, 2, 2, 1]]⟩

/-- A four-row dataset. -/
def cdEx4 : CapData := ⟨dfEx4⟩

/-- A `CapTest` instance whose non-empty filtered data has four rows. -/
def ctEx4 : CapTest :=
  { das := cdEx4, flt_das := cdEx4, sim := cdEx4, flt_sim := cdEx4, rc := rcEx
    tolerance := "+/- 10", ols_model_das := some modelEx
    ols_model_sim := some modelEx }

/-! ## Claim theorems -/

/-- Claim C1 (counterexample): with tolerance sign '*' (not one of the four
recognised values) and `print_res=False`, `cp_results` neither raises any
tolerance error nor fails: it silently returns the capacity ratio.  This
refutes the claim that an unrecognised sign always raises
`ToleranceFormatError` regardless of the print flag (no such exception exists
anywhere in the code). -/
theorem cp_results_star_sign_silent :
    (cp_results modelEx modelEx rcEx "* 10" 1000 false (1 / 20) false).2
      = Except.ok (1, none) := by
  have hpred : modelEx.predict rcEx = 4 := by
    norm_num [OLSModel.predict, modelEx, regFmlTerms, termValue, rcEx]
  have hratio : capRatioAdjust 4 4 = (1, 4) := by
    norm_num [capRatioAdjust]
  have hsplit : splitOnSpace "* 10" = ["*", "10"] := by decide
  have hparse : parseInt "10" = some 10 := by decide
  simp [cp_results, hpred, hratio, hsplit, hparse]

/-- Claim C1 (amended): for every unrecognised tolerance sign whose tolerance
string still parses (a second space-separated integer field), `cp_results`
never raises a `ToleranceFormatError` (none exists in the code): with
`print_res=False` it silently returns the capacity ratio with no verdict, and
with `print_res=True` it raises `UnboundLocalError` from the never-assigned
`bounds` local. -/
theorem cp_results_unrecognized_sign_no_error (das sim : OLSModel) (rc : RC)
    (tol : String) (n pval : ℚ) (errStr : String) (e : Int)
    (hget : (splitOnSpace tol)[1]? = some errStr)
    (hint : parseInt errStr = some e)
    (hsign : recognizedSign (splitOnSpace tol).headI = false) :
    (cp_results das sim rc tol n false pval false).2
        = Except.ok ((capRatioAdjust (das.predict rc) (sim.predict rc)).1, none)
    ∧ (cp_results das sim rc tol n false pval true).2
        = Except.error CPError.unboundLocal := by
  have hpf := passFail_none_of_unrecognized (splitOnSpace tol).headI n (e : ℚ)
    (n * (capRatioAdjust (das.predict rc) (sim.predict rc)).1) hsign
  constructor <;> simp [cp_results, hget, hint, hpf]

/-- Witness for the amended C1 at tolerance '* 10'. -/
theorem cp_results_unrecognized_sign_no_error_witness :
    (splitOnSpace "* 10")[1]? = some "10"
    ∧ parseInt "10" = some 10
    ∧ recognizedSign (splitOnSpace "* 10").headI = false
    ∧ ((cp_results modelEx modelEx rcEx "* 10" 1000 false (1 / 20) false).2
        = Except.ok
            ((capRatioAdjust (modelEx.predict rcEx) (modelEx.predict rcEx)).1, none)
      ∧ (cp_results modelEx modelEx rcEx "* 10" 1000 false (1 / 20) true).2
        = Except.error CPError.unboundLocal) := by
  have h1 : (splitOnSpace "* 10")[1]? = some "10" := by decide
  have h2 : parseInt "10" = some 10 := by decide
  have h3 : recognizedSign (splitOnSpace "* 10").headI = false := by decide
  exact ⟨h1, h2, h3,
    cp_results_unrecognized_sign_no_error modelEx modelEx rcEx "* 10" 1000
      (1 / 20) "10" 10 h1 h2 h3⟩

/-- Claim C2 (code bug): `uncertainty` never extends the measured data.  The
value of `df.append([rc_pt])` (which would have one extra row) is discarded, so
the refit input equals the original frame, its length is unchanged rather than
increased by one, and `hat_matrix_diag[-1]` is the leverage of the original
last row, not of the reporting-condition point. -/
theorem uncertainty_refit_on_unextended_data (flt : DataFrame) (rc : RC)
    (actual : ℚ) :
    uncertaintyData flt rc actual = flt
    ∧ (uncertaintyData flt rc actual).rows.length = flt.rows.length
    ∧ (uncertaintyAppended flt rc actual).rows.length = flt.rows.length + 1
    ∧ uncertaintyLeverageIndex flt rc actual = flt.rows.length - 1 := by
  refine ⟨rfl, rfl, ?_, rfl⟩
  simp [uncertaintyAppended]

/-- Claim C3: `cp_results` returns exactly the unit-corrected capacity ratio of
the two model predictions; the correction multiplies both `cap_ratio` and
`actual` by 1000 exactly when `cap_ratio < 0.01` and leaves them unchanged
otherwise; `actual=0.003`, `expected=1.5` yields ratio 2 and actual 3; and the
pass/fail verdict is evaluated at `capacity = nameplate * cap_ratio`. -/
theorem cp_results_cap_ratio_heuristic (das sim : OLSModel) (rc : RC)
    (n pval : ℚ) :
    (cp_results das sim rc "+/- 10" n false pval false).2
        = Except.ok ((capRatioAdjust (das.predict rc) (sim.predict rc)).1, none)
    ∧ (cp_results das sim rc "+/- 10" n false pval true).2
        = Except.ok ((capRatioAdjust (das.predict rc) (sim.predict rc)).1,
            passFail "+/-" n 10
              (n * (capRatioAdjust (das.predict rc) (sim.predict rc)).1))
    ∧ (∀ a e : ℚ, capRatioAdjust a e =
        if a / e < 1 / 100 then (a / e * 1000, a * 1000) else (a / e, a))
    ∧ capRatioAdjust (3 / 1000) (3 / 2) = (2, 3) := by
  refine ⟨rfl, rfl, fun a e => rfl, by norm_num [capRatioAdjust]⟩

/-- Claim C4 (counterexample): with nameplate 1000 and the symmetric
plus-minus tolerance of 10 percent, a capacity of exactly 1100 PASSES (the
band comparison of line 333 is inclusive), refuting the claim's example that
capacity 1100 fails. -/
theorem passFail_symmetric_upper_bound_passes :
    passFail "+/-" 1000 10 1100 = some true := by
  norm_num [passFail]

/-- Claim C4 (amended): the pass/fail verdict is PASS exactly when the
capacity lies in the closed tolerance band: [n(1-e/100), n(1+e/100)] for the
two symmetric signs (plus-slash-minus and its reversal), [n, n(1+e/100)] for
'+', [n(1-e/100), n] for '-'; with n=1000 and the symmetric tolerance of 10
percent, capacities 950 and 1100 pass and 880 fails; with '+ 10', capacities
in [1000, 1100] pass and 999 fails. -/
theorem passFail_tolerance_bands (n e c : ℚ) (hn : 0 < n) :
    (passFail "+/-" n e c = some true
      ↔ n * (1 - e / 100) ≤ c ∧ c ≤ n * (1 + e / 100))
    ∧ (passFail "-/+" n e c = some true
      ↔ n * (1 - e / 100) ≤ c ∧ c ≤ n * (1 + e / 100))
    ∧ (passFail "+" n e c = some true ↔ n ≤ c ∧ c ≤ n * (1 + e / 100))
    ∧ (passFail "-" n e c = some true ↔ n * (1 - e / 100) ≤ c ∧ c ≤ n)
    ∧ passFail "+/-" 1000 10 950 = some true
    ∧ passFail "+/-" 1000 10 880 = some false
    ∧ passFail "+/-" 1000 10 1100 = some true
    ∧ passFail "+" 1000 10 1000 = some true
    ∧ passFail "+" 1000 10 1100 = some true
    ∧ passFail "+" 1000 10 999 = some false := by
  refine ⟨?_, ?_, ?_, ?_, by norm_num [passFail], by norm_num [passFail],
    by norm_num [passFail], by norm_num [passFail] <;> decide,
    by norm_num [passFail] <;> decide, by norm_num [passFail] <;> decide⟩
  · rw [show passFail "+/-" n e c
        = some (decide (n * (1 - e / 100) ≤ c ∧ c ≤ n * (1 + e / 100))) from rfl]
    simp
  · rw [show passFail "-/+" n e c
        = some (decide (n * (1 - e / 100) ≤ c ∧ c ≤ n * (1 + e / 100))) from rfl]
    simp
  · rw [show passFail "+" n e c
        = some (decide (n ≤ c ∧ c ≤ n * (1 + e / 100))) from rfl]
    simp
  · rw [show passFail "-" n e c
        = some (decide (n * (1 - e / 100) ≤ c ∧ c ≤ n)) from rfl]
    simp

/-- Witness for the amended C4 at n=1000, e=10, c=950. -/
theorem passFail_tolerance_bands_witness :
    (0 : ℚ) < 1000
    ∧ (passFail "+/-" 1000 10 950 = some true
        ↔ (1000 : ℚ) * (1 - 10 / 100) ≤ 950
          ∧ (950 : ℚ) ≤ 1000 * (1 + 10 / 100)) :=
  ⟨by norm_num, (passFail_tolerance_bands 1000 10 950 (by norm_num)).1⟩

/-- Claim C5: the fit fails with `FitError` exactly when a required column is
missing or there are fewer rows than the number of formula terms; on success
the fitted model has exactly one coefficient per formula term, and the formula
has 4 terms. -/
theorem fit_model_characterization (eng : OLSEngine) (df : DataFrame) :
    ((fit_model eng df).toOption.map fun m => m.paramsList.length)
      = (if (requiredRegCols.all fun c => df.cols.contains c) = true
            ∧ regFmlTerms.length ≤ df.rows.length
         then some regFmlTerms.length else none)
    ∧ regFmlTerms.length = 4 := by
  constructor
  · unfold fit_model
    cases hall : (requiredRegCols.all fun c => df.cols.contains c) with
    | false => simp [Except.toOption]
    | true =>
      by_cases h2 : df.rows.length < regFmlTerms.length
      · have h3 : ¬ regFmlTerms.length ≤ df.rows.length := by omega
        simp [Except.toOption, h2, h3]
      · have h3 : regFmlTerms.length ≤ df.rows.length := by omega
        simp [Except.toOption, h2, h3, OLSModel.paramsList]
  · rfl

/-- Claim C6: `summary` concatenates das records then sim records when both
histories are non-empty, returns exactly the non-empty history when only one
has records, and reports "no filters have been run" (returns `none`, without
raising) when both are empty. -/
theorem summary_merge_spec {α β : Type} (dS sS : List α) (dM sM : List β)
    (hd : dS.length = dM.length) (hs : sS.length = sM.length) :
    summary dS sS dM sM =
      if dS.length = 0 ∧ sS.length = 0 then none
      else if dS.length ≠ 0 ∧ sS.length ≠ 0 then some (dS ++ sS, dM ++ sM)
      else if dS.length ≠ 0 then some (dS, dM)
      else some (sS, sM) := by
  by_cases h1 : dS.length = 0 <;> by_cases h2 : sS.length = 0
  · have hm : sM = [] := List.length_eq_zero.mp (by omega)
    simp [summary, h1, h2, hm]
  · have hml : sM.length ≠ 0 := by omega
    have hie : sM.isEmpty = false := by
      cases sM with
      | nil => exact absurd rfl hml
      | cons a l => rfl
    simp [summary, h1, h2, hie]
  · have hml : dM.length ≠ 0 := by omega
    have hie : dM.isEmpty = false := by
      cases dM with
      | nil => exact absurd rfl hml
      | cons a l => rfl
    simp [summary, h1, h2, hie]
  · have hie : (dM ++ sM).isEmpty = false := by
      cases dM with
      | nil =>
        exact absurd (hd.trans rfl) h1
      | cons a l => rfl
    simp [summary, h1, h2, hie]

/-- Witness for C6: two das records and no sim records give exactly the two
das rows in original order. -/
theorem summary_merge_spec_witness :
    (([0, 1] : List ℕ).length = ([10, 11] : List ℕ).length)
    ∧ (([] : List ℕ).length = ([] : List ℕ).length)
    ∧ summary [0, 1] ([] : List ℕ) [10, 11] ([] : List ℕ)
        = some ([0, 1], [10, 11]) := by
  have h := summary_merge_spec [0, 1] ([] : List ℕ) [10, 11] ([] : List ℕ)
    rfl rfl
  exact ⟨rfl, rfl, by rw [h]; decide⟩

/-- Claim C7: whenever the regression view and fit of `reg_cpt` succeed (the
four-column rename goes through and the view has at least as many rows as the
formula has terms — otherwise the source raises before any filtering), the
filtering mode keeps exactly the rows whose regression residual satisfies
|residual| < 2·√scale, and the filtered row count never exceeds the input row
count. -/
theorem reg_cpt_filter_keeps_small_residuals (eng : OLSEngine) (s : CapTest)
    (tag : DataTag) (dfv : DataFrame)
    (hview : regView (flt_setup s tag).2 = some dfv)
    (hrows : regFmlTerms.length ≤ dfv.rows.length) :
    (getFlt (reg_cpt eng s tag true true true).1 tag).df.rows
      = ((flt_setup s tag).2.df.rows.zip (eng.fit dfv).resid).filterMap
          (fun pr =>
            if |(pr.2 : ℝ)| < 2 * Real.sqrt (((eng.fit dfv).scale : ℝ))
            then some pr.1 else none)
    ∧ (getFlt (reg_cpt eng s tag true true true).1 tag).df.rows.length
        ≤ (flt_setup s tag).2.df.rows.length := by
  have hok := fit_model_ok_of_regView eng (flt_setup s tag).2 dfv hview hrows
  have hgf : ∀ (x : CapTest) (cd : CapData), getFlt (setFlt x tag cd) tag = cd := by
    intro x cd
    cases tag <;> rfl
  have hget : getFlt (reg_cpt eng s tag true true true).1 tag
      = ⟨{ (flt_setup s tag).2.df with
            rows := regFilterRows (flt_setup s tag).2.df.rows
              (eng.fit dfv).resid (eng.fit dfv).scale }⟩ := by
    simp [reg_cpt, hview, hok, hgf]
  rw [hget]
  exact ⟨regFilterRows_eq_filterMap _ _ _ (eng.scale_nonneg _),
    regFilterRows_length_le _ _ _⟩

/-- Witness for C7 on a four-row fixture where the view and fit succeed. -/
theorem reg_cpt_filter_keeps_small_residuals_witness :
    regView (flt_setup ctEx4 DataTag.das).2 = some dfEx4
    ∧ regFmlTerms.length ≤ dfEx4.rows.length
    ∧ ((getFlt (reg_cpt engEx ctEx4 DataTag.das true true true).1
          DataTag.das).df.rows
        = ((flt_setup ctEx4 DataTag.das).2.df.rows.zip
            (engEx.fit dfEx4).resid).filterMap
            (fun pr =>
              if |(pr.2 : ℝ)|
                  < 2 * Real.sqrt (((engEx.fit dfEx4).scale : ℝ))
              then some pr.1 else none)
      ∧ (getFlt (reg_cpt engEx ctEx4 DataTag.das true true true).1
            DataTag.das).df.rows.length
          ≤ (flt_setup ctEx4 DataTag.das).2.df.rows.length) := by
  have h1 : regView (flt_setup ctEx4 DataTag.das).2 = some dfEx4 := by decide
  have h2 : regFmlTerms.length ≤ dfEx4.rows.length := by decide
  exact ⟨h1, h2,
    reg_cpt_filter_keeps_small_residuals engEx ctEx4 DataTag.das dfEx4 h1 h2⟩

/-- Claim C8: on a non-empty filtered dataset whose regression view and fit
succeed, once every residual of the fitted model is strictly inside two
standard deviations, the residual filter removes zero rows: `reg_cpt` with
`filter=True` leaves the instance exactly as it was and returns `None`. -/
theorem reg_cpt_filter_converged_id (eng : OLSEngine) (s : CapTest)
    (tag : DataTag) (dfv : DataFrame)
    (h : (getFlt s tag).empty = false)
    (hview : regView (getFlt s tag) = some dfv)
    (hrows : regFmlTerms.length ≤ dfv.rows.length)
    (hconv : ∀ r ∈ (eng.fit dfv).resid,
        |(r : ℝ)| < 2 * Real.sqrt (((eng.fit dfv).scale : ℝ))) :
    reg_cpt eng s tag true true true = (s, Except.ok none) := by
  have hfs := flt_setup_of_nonempty s tag h
  have hok := fit_model_ok_of_regView eng (getFlt s tag) dfv hview hrows
  have hall : ∀ r ∈ (eng.fit dfv).resid,
      residKeep r (eng.fit dfv).scale = true :=
    fun r hr => (residKeep_iff r _ (eng.scale_nonneg _)).mpr (hconv r hr)
  have hlen : (getFlt s tag).df.rows.length ≤ (eng.fit dfv).resid.length := by
    rw [eng.resid_len, (regView_some _ _ hview).2]
  have hsame := regFilterRows_eq_self _ _ _ hlen hall
  have hfin : setFlt (setFlt s tag (getFlt s tag)) tag (getFlt s tag) = s := by
    cases tag <;> rfl
  have hred : reg_cpt eng s tag true true true
      = (setFlt (setFlt s tag
            ⟨{ (getFlt s tag).df with
                rows := regFilterRows (getFlt s tag).df.rows
                  (eng.fit dfv).resid (eng.fit dfv).scale }⟩) tag
          ⟨{ (getFlt s tag).df with
              rows := regFilterRows (getFlt s tag).df.rows
                (eng.fit dfv).resid (eng.fit dfv).scale }⟩,
        Except.ok none) := by
    simp [reg_cpt, hfs, hview, hok]
  rw [hred, hsame]
  show (setFlt (setFlt s tag (getFlt s tag)) tag (getFlt s tag), Except.ok none)
    = (s, Except.ok none)
  rw [hfin]

/-- Witness for C8: on a four-row dataset whose fit has residuals 0 and scale
1, the filter pass returns the state unchanged. -/
theorem reg_cpt_filter_converged_id_witness :
    (getFlt ctEx4 DataTag.das).empty = false
    ∧ regView (getFlt ctEx4 DataTag.das) = some dfEx4
    ∧ regFmlTerms.length ≤ dfEx4.rows.length
    ∧ (∀ r ∈ (engEx.fit dfEx4).resid,
        |(r : ℝ)| < 2 * Real.sqrt (((engEx.fit dfEx4).scale : ℝ)))
    ∧ reg_cpt engEx ctEx4 DataTag.das true true true = (ctEx4, Except.ok none) := by
  have h1 : (getFlt ctEx4 DataTag.das).empty = false := rfl
  have hv : regView (getFlt ctEx4 DataTag.das) = some dfEx4 := by decide
  have hr : regFmlTerms.length ≤ dfEx4.rows.length := by decide
  have hres : (engEx.fit dfEx4).resid = [0, 0, 0, 0] := by decide
  have hsc : (engEx.fit dfEx4).scale = 1 := by decide
  have h2 : ∀ r ∈ (engEx.fit dfEx4).resid,
      |(r : ℝ)| < 2 * Real.sqrt (((engEx.fit dfEx4).scale : ℝ)) := by
    rw [hres, hsc]
    intro r hr2
    have hr0 : r = 0 := by
      simp only [List.mem_cons, List.not_mem_nil, or_false] at hr2
      rcases hr2 with h | h | h | h <;> exact h
    subst hr0
    rw [show ((1 : ℚ) : ℝ) = 1 by norm_num, Real.sqrt_one]
    norm_num
  exact ⟨h1, hv, hr, h2,
    reg_cpt_filter_converged_id engEx ctEx4 DataTag.das dfEx4 h1 hv hr h2⟩

/-- Claim C9 (counterexample): after `cp_results` with `check_pvalues=True`,
the stored measured model's poa coefficient is zero although it was 1 before
the call (its p-value 1 exceeds the cutoff 0.05) — the code mutates the stored
model, not a working copy. -/
theorem cp_results_pval_mutation_visible :
    (cp_results modelHighP modelHighP rcEx "+/- 10" 1000 true (1 / 20)
        false).1.1.params Term.poa = 0
    ∧ modelHighP.params Term.poa = 1 := by
  constructor
  · show (if modelHighP.pvalues Term.poa > 1 / 20 then (0 : ℚ)
        else modelHighP.params Term.poa) = 0
    norm_num [modelHighP]
  · rfl

/-- Claim C9 (amended): `cp_results` with `check_pvalues=True` zeroes
high-p-value coefficients directly on the stored models: after the call the
stored models are exactly the originals with every coefficient whose p-value
exceeds `pval` set to zero (and the others unchanged). -/
theorem cp_results_zeroes_stored_params (das sim : OLSModel) (rc : RC)
    (tol : String) (n pval : ℚ) (pr : Bool) :
    (cp_results das sim rc tol n true pval pr).1
      = (zeroHighPvals das pval, zeroHighPvals sim pval)
    ∧ (∀ t, (zeroHighPvals das pval).params t
        = if das.pvalues t > pval then 0 else das.params t)
    ∧ (∀ t, (zeroHighPvals sim pval).params t
        = if sim.pvalues t > pval then 0 else sim.params t) :=
  ⟨rfl, fun t => rfl, fun t => rfl⟩

/-- Claim C10: on a non-empty filtered dataset whose regression view and fit
succeed, `reg_cpt` with `filter=True` and `inplace=False` still mutates the
stored filtered dataset — the returned CapData is the very value now held in
the `flt_` attribute, whose rows are the residual-filtered rows (the row
removal is applied to the stored object before the `inplace` flag is
consulted). -/
theorem reg_cpt_not_inplace_still_mutates (eng : OLSEngine) (s : CapTest)
    (tag : DataTag) (dfv : DataFrame)
    (h : (getFlt s tag).empty = false)
    (hview : regView (getFlt s tag) = some dfv)
    (hrows : regFmlTerms.length ≤ dfv.rows.length) :
    ((reg_cpt eng s tag true false true).2
        = Except.ok (some (getFlt (reg_cpt eng s tag true false true).1 tag)))
    ∧ (getFlt (reg_cpt eng s tag true false true).1 tag).df.rows
        = regFilterRows (getFlt s tag).df.rows
            (eng.fit dfv).resid (eng.fit dfv).scale := by
  have hfs := flt_setup_of_nonempty s tag h
  have hok := fit_model_ok_of_regView eng (getFlt s tag) dfv hview hrows
  have hgf : ∀ (x : CapTest) (cd : CapData), getFlt (setFlt x tag cd) tag = cd := by
    intro x cd
    cases tag <;> rfl
  have hget : getFlt (reg_cpt eng s tag true false true).1 tag
      = ⟨{ (getFlt s tag).df with
            rows := regFilterRows (getFlt s tag).df.rows
              (eng.fit dfv).resid (eng.fit dfv).scale }⟩ := by
    simp [reg_cpt, hfs, hview, hok, hgf]
  have hsnd : (reg_cpt eng s tag true false true).2
      = Except.ok (some
          ⟨{ (getFlt s tag).df with
              rows := regFilterRows (getFlt s tag).df.rows
                (eng.fit dfv).resid (eng.fit dfv).scale }⟩) := by
    simp [reg_cpt, hfs, hview, hok]
  constructor
  · rw [hsnd, hget]
  · rw [hget]

/-- Witness for C10 on a four-row instance with non-empty filtered data whose
view and fit succeed. -/
theorem reg_cpt_not_inplace_still_mutates_witness :
    (getFlt ctEx4 DataTag.das).empty = false
    ∧ regView (getFlt ctEx4 DataTag.das) = some dfEx4
    ∧ regFmlTerms.length ≤ dfEx4.rows.length
    ∧ (((reg_cpt engEx ctEx4 DataTag.das true false true).2
        = Except.ok (some (getFlt
            (reg_cpt engEx ctEx4 DataTag.das true false true).1 DataTag.das)))
      ∧ (getFlt (reg_cpt engEx ctEx4 DataTag.das true false true).1
            DataTag.das).df.rows
        = regFilterRows (getFlt ctEx4 DataTag.das).df.rows
            (engEx.fit dfEx4).resid (engEx.fit dfEx4).scale) := by
  have h1 : (getFlt ctEx4 DataTag.das).empty = false := rfl
  have hv : regView (getFlt ctEx4 DataTag.das) = some dfEx4 := by decide
  have hr : regFmlTerms.length ≤ dfEx4.rows.length := by decide
  exact ⟨h1, hv, hr,
    reg_cpt_not_inplace_still_mutates engEx ctEx4 DataTag.das dfEx4 h1 hv hr⟩

end Captest
